import Mathlib

/-!
Verification of the generic repository / specification / unit-of-work layer of
the fastapi-template repository, shallowly embedded in Lean 4.

The embedding mirrors:
- `app/data/repositories/base.py` (specification engine, `SQLAlchemyRepository`),
- `app/data/unit_of_work.py` (`SQLAlchemyUnitOfWork`),
- `app/repositories/base.py` and `app/repositories/item.py` / `user.py`
  (schema-driven `Repository`),
- `app/services/base.py` and `app/services/item_service.py` (service layer).

SQLAlchemy sessions are modelled as explicit state records carrying the
in-transaction rows together with instrumentation counters (commits,
rollbacks, queries issued per table); awaited coroutines become ordinary
state-passing functions, and Python exceptions become `Except` / explicit
error components.
-/

namespace App

/-- SQLAlchemy column expressions (`ColumnElement[bool]`) over the `Item`
model, as produced by terminal specifications and the combinators
`and_`, `or_`, `~` used in `app/data/repositories/base.py`. -/
inductive ColumnFilter where
  | titleEq (t : String)
  | isActiveEq (b : Bool)
  | ownerIdEq (o : Nat)
  | conj (l r : ColumnFilter)
  | disj (l r : ColumnFilter)
  | neg (f : ColumnFilter)
deriving DecidableEq, Repr

/-- The `Item` SQLAlchemy model from `app/data/models.py`: integer primary
key, `title`, nullable `description`, `is_active`, nullable `owner_id`. -/
structure Item where
  id : Nat
  title : String
  description : Option String
  is_active : Bool
  owner_id : Option Nat
deriving DecidableEq, Repr

/-- The `User` SQLAlchemy model from `app/data/models.py` (just an integer
primary key; the `items` relationship is derived from `Item.owner_id`). -/
structure UserRow where
  id : Nat
deriving DecidableEq, Repr

/-- Evaluation of a column filter against a row, the semantics the database
gives to the generated WHERE clause. -/
def ColumnFilter.eval : ColumnFilter → Item → Bool
  | .titleEq t, e => e.title == t
  | .isActiveEq b, e => e.is_active == b
  | .ownerIdEq o, e => e.owner_id == some o
  | .conj l r, e => l.eval e && r.eval e
  | .disj l r, e => l.eval e || r.eval e
  | .neg f, e => !(f.eval e)

/-- The specification tree of `app/data/repositories/base.py`: a terminal
`ISpecification` whose `to_sqlalchemy_filter` returns a filter or `None`
(`leaf`), and the composites `AndSpecification`, `OrSpecification`,
`NotSpecification` built by `and_` / `or_` / `not_`. -/
inductive Specification where
  | leaf (f : Option ColumnFilter)
  | and_ (left right : Specification)
  | or_ (left right : Specification)
  | not_ (spec : Specification)
deriving DecidableEq, Repr

/-- Model of `to_sqlalchemy_filter`, combined over the three composite classes:

* `AndSpecification` (lines 101-108): left `None` → right filter; right
  `None` → left filter; otherwise `and_(left, right)`.
* `OrSpecification` (lines 118-127): both `None` → `None`; exactly one
  `None` → the other side; otherwise `or_(left, right)`.
* `NotSpecification` (lines 136-140): `None` → `None`; otherwise `~filter`.
-/
def Specification.to_sqlalchemy_filter : Specification → Option ColumnFilter
  | .leaf f => f
  | .and_ left right =>
    match left.to_sqlalchemy_filter, right.to_sqlalchemy_filter with
    | none, rf => rf
    | some lf, none => some lf
    | some lf, some rf => some (.conj lf rf)
  | .or_ left right =>
    match left.to_sqlalchemy_filter, right.to_sqlalchemy_filter with
    | none, none => none
    | none, some rf => some rf
    | some lf, none => some lf
    | some lf, some rf => some (.disj lf rf)
  | .not_ spec =>
    match spec.to_sqlalchemy_filter with
    | none => none
    | some f => some (.neg f)

/-- C2: `OrSpecification(left, right).to_sqlalchemy_filter()` returns null
when both sides are null, the non-null side when exactly one side is null,
and the disjunction of both filters otherwise. -/
theorem or_specification_filter_cases (left right : Specification) :
    (left.to_sqlalchemy_filter = none → right.to_sqlalchemy_filter = none →
      (Specification.or_ left right).to_sqlalchemy_filter = none) ∧
    (∀ rf, left.to_sqlalchemy_filter = none → right.to_sqlalchemy_filter = some rf →
      (Specification.or_ left right).to_sqlalchemy_filter = some rf) ∧
    (∀ lf, left.to_sqlalchemy_filter = some lf → right.to_sqlalchemy_filter = none →
      (Specification.or_ left right).to_sqlalchemy_filter = some lf) ∧
    (∀ lf rf, left.to_sqlalchemy_filter = some lf → right.to_sqlalchemy_filter = some rf →
      (Specification.or_ left right).to_sqlalchemy_filter = some (ColumnFilter.disj lf rf)) := by
  refine ⟨fun hl hr => ?_, fun rf hl hr => ?_, fun lf hl hr => ?_, fun lf rf hl hr => ?_⟩ <;>
    simp [Specification.to_sqlalchemy_filter, hl, hr]

/-- C2 witness: the four cases evaluated at concrete specifications. -/
theorem or_specification_filter_cases_witness :
    (Specification.or_ (.leaf none) (.leaf none)).to_sqlalchemy_filter = none ∧
    (Specification.or_ (.leaf none)
      (.leaf (some (.titleEq "a")))).to_sqlalchemy_filter = some (.titleEq "a") ∧
    (Specification.or_ (.leaf (some (.titleEq "a")))
      (.leaf none)).to_sqlalchemy_filter = some (.titleEq "a") ∧
    (Specification.or_ (.leaf (some (.titleEq "a")))
      (.leaf (some (.isActiveEq true)))).to_sqlalchemy_filter
        = some (ColumnFilter.disj (.titleEq "a") (.isActiveEq true)) :=
  ⟨(or_specification_filter_cases (.leaf none) (.leaf none)).1 rfl rfl,
   (or_specification_filter_cases (.leaf none) (.leaf (some (.titleEq "a")))).2.1
     (.titleEq "a") rfl rfl,
   (or_specification_filter_cases (.leaf (some (.titleEq "a"))) (.leaf none)).2.2.1
     (.titleEq "a") rfl rfl,
   (or_specification_filter_cases (.leaf (some (.titleEq "a")))
       (.leaf (some (.isActiveEq true)))).2.2.2
     (.titleEq "a") (.isActiveEq true) rfl rfl⟩

/-- C3: a null-filter specification is an identity of AND-composition:
`S.and_(N).to_sqlalchemy_filter() = S.to_sqlalchemy_filter()` whenever `N`
has a null filter, and `AndSpecification(N, N)` has a null filter. -/
theorem and_specification_null_identity (S N : Specification)
    (hN : N.to_sqlalchemy_filter = none) :
    (Specification.and_ S N).to_sqlalchemy_filter = S.to_sqlalchemy_filter ∧
    (Specification.and_ N N).to_sqlalchemy_filter = none := by
  constructor
  · cases hS : S.to_sqlalchemy_filter <;>
      simp [Specification.to_sqlalchemy_filter, hS, hN]
  · simp [Specification.to_sqlalchemy_filter, hN]

/-- C3 witness: a specification with a title filter AND-composed with a
null-filter specification keeps exactly the title filter. -/
theorem and_specification_null_identity_witness :
    (Specification.and_ (.leaf (some (.titleEq "a")))
        (.leaf none)).to_sqlalchemy_filter
      = (Specification.leaf (some (.titleEq "a"))).to_sqlalchemy_filter ∧
    (Specification.and_ (.leaf none) (.leaf none)).to_sqlalchemy_filter = none :=
  ⟨(and_specification_null_identity (.leaf (some (.titleEq "a"))) (.leaf none) rfl).1,
   (and_specification_null_identity (.leaf (some (.titleEq "a"))) (.leaf none) rfl).2⟩

/-! ## Unit of work (`app/data/unit_of_work.py`) -/

/-- The `AsyncSession` object held by a unit of work, tracking what has been
done to it: `closed` records whether `close()` ran, `committed` /
`rolled_back` whether `commit()` / `rollback()` succeeded on it. -/
structure UoWSession where
  closed : Bool
  committed : Bool
  rolled_back : Bool
deriving DecidableEq, Repr

/-- Store-side failures the awaited session calls may raise. -/
inductive DBError where
  | commitFailed
  | rollbackFailed
deriving DecidableEq, Repr

/-- Behaviour of the backing store during one exit: whether
`session.commit()` / `session.rollback()` raise when awaited. -/
structure StoreBehavior where
  commitFails : Bool
  rollbackFails : Bool
deriving DecidableEq, Repr

/-- Model of `SQLAlchemyUnitOfWork` state: `session` is the `AsyncSession | None`
attribute, `repositories` the keys of the `_repositories` cache dict. -/
structure SQLAlchemyUnitOfWork where
  session : Option UoWSession
  repositories : List String
deriving DecidableEq, Repr

namespace SQLAlchemyUnitOfWork

/-- Model of `commit` (lines 107-110): `if self.session: await self.session.commit()`.
A raised store error propagates as `.error`; otherwise the updated unit of
work is returned. -/
def commit (env : StoreBehavior) (u : SQLAlchemyUnitOfWork) :
    Except DBError SQLAlchemyUnitOfWork :=
  match u.session with
  | none => .ok u
  | some s =>
    if env.commitFails then .error .commitFailed
    else .ok { u with session := some { s with committed := true } }

/-- Model of `rollback` (lines 112-115): `if self.session: await self.session.rollback()`. -/
def rollback (env : StoreBehavior) (u : SQLAlchemyUnitOfWork) :
    Except DBError SQLAlchemyUnitOfWork :=
  match u.session with
  | none => .ok u
  | some s =>
    if env.rollbackFails then .error .rollbackFailed
    else .ok { u with session := some { s with rolled_back := true } }

/-- Model of `__aexit__` (lines 92-105). `excInFlight` is `exc_type` being non-None.
Result: the raised store error (if the commit/rollback line raised, in
which case the remaining statements of the method body never run), the
final unit-of-work state, and the final state of the session object the
unit of work held on entry (`none` when it held no session). -/
def aexit (env : StoreBehavior) (u : SQLAlchemyUnitOfWork) (excInFlight : Bool) :
    Option DBError × SQLAlchemyUnitOfWork × Option UoWSession :=
  match (if excInFlight then rollback env u else commit env u) with
  | .error e => (some e, u, u.session)
  | .ok u1 =>
    match u1.session with
    | some s =>
      let closedSession : UoWSession := { s with closed := true }
      (none, { session := none, repositories := [] }, some closedSession)
    | none => (none, { session := none, repositories := [] }, none)

end SQLAlchemyUnitOfWork

/-- A freshly entered session, as created by `__aenter__`. -/
def freshSession : UoWSession := { closed := false, committed := false, rolled_back := false }

/-- C1 (refuted): on the exit path where `commit()` itself raises, `__aexit__`
propagates the error having neither closed the session nor cleared the
repository cache — the `close()` / `clear()` statements at lines 102-105 are
not in a `finally` block. Concretely: an entered unit of work with one
cached repository, no exception in flight, and a store whose commit fails,
ends with the error propagated, the session object not closed, and the
cache still holding the repository. -/
theorem uow_aexit_commit_failure_skips_cleanup :
    SQLAlchemyUnitOfWork.aexit
        { commitFails := true, rollbackFails := false }
        { session := some freshSession, repositories := ["Item"] }
        false
      = (some DBError.commitFailed,
         { session := some freshSession, repositories := ["Item"] },
         some freshSession) ∧
    freshSession.closed = false := by
  constructor <;> rfl

/-- C10: `commit()` and `rollback()` on a unit of work whose `session` is
`None` are silent no-ops: they raise nothing and leave the state untouched,
whatever the store would have done. -/
theorem uow_commit_rollback_noop_without_session
    (env : StoreBehavior) (u : SQLAlchemyUnitOfWork) (h : u.session = none) :
    SQLAlchemyUnitOfWork.commit env u = .ok u ∧
    SQLAlchemyUnitOfWork.rollback env u = .ok u := by
  constructor <;> simp [SQLAlchemyUnitOfWork.commit, SQLAlchemyUnitOfWork.rollback, h]

/-- C10 witness: a never-entered (or already exited) unit of work, against a
store where both commit and rollback would fail, still no-ops. -/
theorem uow_commit_rollback_noop_without_session_witness :
    SQLAlchemyUnitOfWork.commit { commitFails := true, rollbackFails := true }
        { session := none, repositories := [] }
      = .ok { session := none, repositories := [] } ∧
    SQLAlchemyUnitOfWork.rollback { commitFails := true, rollbackFails := true }
        { session := none, repositories := [] }
      = .ok { session := none, repositories := [] } :=
  uow_commit_rollback_noop_without_session
    { commitFails := true, rollbackFails := true }
    { session := none, repositories := [] } rfl

/-! ## Generic SQLAlchemy repository (`app/data/repositories/base.py`),
instantiated at `model_class = Item`. The session is the in-transaction
row view plus counters of `commit()` / `rollback()` calls issued on it. -/

/-- An `AsyncSession` as seen by `SQLAlchemyRepository`: the current
in-transaction rows of the `items` table (flush applies staged changes to
this view without committing) and how many commits/rollbacks have been
issued on the session. -/
structure SqlaSession where
  rows : List Item
  commits : Nat
  rollbacks : Nat
deriving DecidableEq, Repr

/-- Applying an optional WHERE clause to a query, as the repository methods
do with `if spec_filter is not None: query = query.where(spec_filter)`. -/
def applyFilter (rows : List Item) : Option ColumnFilter → List Item
  | some f => rows.filter (fun r => f.eval r)
  | none => rows

namespace SQLAlchemyRepository

/-- Model of `get_by_id` (line 158-160): `session.get(Item, id)`. -/
def get_by_id (s : SqlaSession) (id : Nat) : Option Item × SqlaSession :=
  (s.rows.find? (fun r => r.id == id), s)

/-- Model of `get_all` (lines 162-166): `select(Item).offset(skip).limit(limit)`. -/
def get_all (s : SqlaSession) (skip limit : Nat) : List Item × SqlaSession :=
  ((s.rows.drop skip).take limit, s)

/-- Model of `create` (lines 168-173): `session.add(entity)`, `flush`, `refresh`. -/
def create (s : SqlaSession) (entity : Item) : Item × SqlaSession :=
  (entity, { s with rows := s.rows ++ [entity] })

/-- Model of `update` (lines 175-180): `session.merge(entity)` (replace the row with
the same primary key, or insert if absent), `flush`, `refresh`. -/
def update (s : SqlaSession) (entity : Item) : Item × SqlaSession :=
  if s.rows.any (fun r => r.id == entity.id) then
    (entity, { s with rows := s.rows.map (fun r => if r.id == entity.id then entity else r) })
  else
    (entity, { s with rows := s.rows ++ [entity] })

/-- Model of `delete` (lines 182-189): `get_by_id`; if found, `session.delete(entity)`
(discard that object) and `flush`, returning `True`; else `False`. -/
def delete (s : SqlaSession) (id : Nat) : Bool × SqlaSession :=
  match (get_by_id s id).1 with
  | some _ => (true, { s with rows := s.rows.eraseP (fun r => r.id == id) })
  | none => (false, s)

/-- Model of `exists` (lines 191-196): `SELECT count(*) WHERE Item.id == id`, then
`count is not None and count > 0`. -/
def exists_ (s : SqlaSession) (id : Nat) : Bool × SqlaSession :=
  (decide (0 < s.rows.countP (fun r => r.id == id)), s)

/-- Model of `find_by_specification` (lines 198-208): optional WHERE from the
specification filter, then `offset(skip).limit(limit)`. -/
def find_by_specification (s : SqlaSession) (spec : Specification) (skip limit : Nat) :
    List Item × SqlaSession :=
  (((applyFilter s.rows spec.to_sqlalchemy_filter).drop skip).take limit, s)

/-- Model of `count_by_specification` (lines 210-217): `SELECT count(Item.id)` with
the same optional WHERE; `scalar() or 0`. -/
def count_by_specification (s : SqlaSession) (spec : Specification) : Nat × SqlaSession :=
  ((applyFilter s.rows spec.to_sqlalchemy_filter).length, s)

/-- The rows both queries of `get_paginated_with_filters` range over: the
filter condition is computed once (`filter_condition =
specification.to_sqlalchemy_filter()`) and applied to the page query and
the count query alike; no specification, or a `None` filter, leaves both
queries unfiltered. -/
def filteredRows (rows : List Item) : Option Specification → List Item
  | some spec => applyFilter rows spec.to_sqlalchemy_filter
  | none => rows

/-- Model of `get_paginated_with_filters` (lines 219-244): one filter evaluation
feeding both the paginated page query and the count query. -/
def get_paginated_with_filters (s : SqlaSession) (spec : Option Specification)
    (skip limit : Nat) : (List Item × Nat) × SqlaSession :=
  let filtered := filteredRows s.rows spec
  (((filtered.drop skip).take limit, filtered.length), s)

end SQLAlchemyRepository

/-- C5: `get_paginated_with_filters` computes page and total from one and
the same filtered row set (a single `to_sqlalchemy_filter` evaluation
applied to both queries), the page has length at most `limit`, and the
total count is at least the length of the page. -/
theorem get_paginated_with_filters_consistent (s : SqlaSession)
    (spec : Option Specification) (skip limit : Nat) :
    (SQLAlchemyRepository.get_paginated_with_filters s spec skip limit).1.1
        = ((SQLAlchemyRepository.filteredRows s.rows spec).drop skip).take limit ∧
    (SQLAlchemyRepository.get_paginated_with_filters s spec skip limit).1.2
        = (SQLAlchemyRepository.filteredRows s.rows spec).length ∧
    (SQLAlchemyRepository.get_paginated_with_filters s spec skip limit).1.1.length ≤ limit ∧
    (SQLAlchemyRepository.get_paginated_with_filters s spec skip limit).1.1.length
        ≤ (SQLAlchemyRepository.get_paginated_with_filters s spec skip limit).1.2 := by
  refine ⟨rfl, rfl, ?_, ?_⟩
  · show (((SQLAlchemyRepository.filteredRows s.rows spec).drop skip).take limit).length ≤ limit
    exact List.length_take_le _ _
  · show (((SQLAlchemyRepository.filteredRows s.rows spec).drop skip).take limit).length
      ≤ (SQLAlchemyRepository.filteredRows s.rows spec).length
    calc (((SQLAlchemyRepository.filteredRows s.rows spec).drop skip).take limit).length
        = min limit ((SQLAlchemyRepository.filteredRows s.rows spec).drop skip).length := by
          simp [List.length_take]
      _ ≤ ((SQLAlchemyRepository.filteredRows s.rows spec).drop skip).length :=
          min_le_right _ _
      _ ≤ (SQLAlchemyRepository.filteredRows s.rows spec).length := by
          simp [List.length_drop]

/-- After erasing with the id predicate, no row carries that id, provided
primary keys were pairwise distinct to begin with. -/
theorem eraseP_id_no_match (l : List Item) (id : Nat)
    (h : (l.map Item.id).Nodup) :
    ∀ e ∈ l.eraseP (fun r => r.id == id), e.id ≠ id := by
  induction l with
  | nil => intro e he; simp [List.eraseP] at he
  | cons a l ih =>
    intro e he
    by_cases ha : a.id = id
    · have hb : (a.id == id) = true := by simpa using ha
      simp only [List.eraseP_cons, hb, cond_true] at he
      have hnotin : a.id ∉ l.map Item.id := (List.nodup_cons.mp h).1
      intro he_id
      exact hnotin (by rw [ha, ← he_id]; exact List.mem_map_of_mem Item.id he)
    · have hb : (a.id == id) = false := by simpa using ha
      simp only [List.eraseP_cons, hb, cond_false] at he
      rcases List.mem_cons.mp he with rfl | he
      · exact ha
      · exact ih (List.nodup_cons.mp h).2 e he

/-- A `delete` on a session none of whose rows carries the id returns
`False` and leaves the session untouched. -/
theorem delete_not_found (s : SqlaSession) (id : Nat)
    (h : ∀ e ∈ s.rows, e.id ≠ id) :
    SQLAlchemyRepository.delete s id = (false, s) := by
  have hf : s.rows.find? (fun r => r.id == id) = none :=
    List.find?_eq_none.mpr (fun e he => by simpa using h e he)
  simp [SQLAlchemyRepository.delete, SQLAlchemyRepository.get_by_id, hf]

/-- C7: with pairwise-distinct primary keys, `delete(id)` returns `True`
exactly when a row with that id exists, a not-found delete leaves the
session untouched (and raises nothing — the operation is total), and a
second `delete` of the same id returns `False`. -/
theorem sqla_delete_spec (s : SqlaSession) (id : Nat)
    (h : (s.rows.map Item.id).Nodup) :
    ((SQLAlchemyRepository.delete s id).1 = true ↔ ∃ e ∈ s.rows, e.id = id) ∧
    ((SQLAlchemyRepository.delete s id).1 = false → (SQLAlchemyRepository.delete s id).2 = s) ∧
    (∀ e ∈ (SQLAlchemyRepository.delete s id).2.rows, e.id ≠ id) ∧
    (SQLAlchemyRepository.delete (SQLAlchemyRepository.delete s id).2 id).1 = false := by
  have hnomatch : ∀ e ∈ (SQLAlchemyRepository.delete s id).2.rows, e.id ≠ id := by
    cases hf : s.rows.find? (fun r => r.id == id) with
    | none =>
      intro e he
      have := List.find?_eq_none.mp hf e
      simp [SQLAlchemyRepository.delete, SQLAlchemyRepository.get_by_id, hf] at he
      simpa using this he
    | some a =>
      intro e he
      simp only [SQLAlchemyRepository.delete, SQLAlchemyRepository.get_by_id, hf] at he
      exact eraseP_id_no_match s.rows id h e he
  refine ⟨?_, ?_, hnomatch, ?_⟩
  · constructor
    · intro htrue
      cases hf : s.rows.find? (fun r => r.id == id) with
      | none =>
        exfalso
        simp [SQLAlchemyRepository.delete, SQLAlchemyRepository.get_by_id, hf] at htrue
      | some a =>
        exact ⟨a, List.mem_of_find?_eq_some hf, by simpa using List.find?_some hf⟩
    · rintro ⟨e, he, hid⟩
      cases hf : s.rows.find? (fun r => r.id == id) with
      | none =>
        exfalso
        have := List.find?_eq_none.mp hf e he
        simp [hid] at this
      | some a =>
        simp [SQLAlchemyRepository.delete, SQLAlchemyRepository.get_by_id, hf]
  · intro hfalse
    cases hf : s.rows.find? (fun r => r.id == id) with
    | none => simp [SQLAlchemyRepository.delete, SQLAlchemyRepository.get_by_id, hf]
    | some a =>
      exfalso
      simp [SQLAlchemyRepository.delete, SQLAlchemyRepository.get_by_id, hf] at hfalse
  · rw [delete_not_found ((SQLAlchemyRepository.delete s id).2) id hnomatch]

/-- C7 witness: a two-row table; deleting id 1 succeeds once, the second
delete of id 1 returns `False`; the survivor is untouched. -/
theorem sqla_delete_spec_witness :
    ((([{ id := 1, title := "a", description := none, is_active := true, owner_id := none },
        { id := 2, title := "b", description := none, is_active := true, owner_id := none }] :
          List Item).map Item.id).Nodup) ∧
    (SQLAlchemyRepository.delete
        { rows := [{ id := 1, title := "a", description := none, is_active := true,
                     owner_id := none },
                   { id := 2, title := "b", description := none, is_active := true,
                     owner_id := none }],
          commits := 0, rollbacks := 0 } 1).1 = true := by
  constructor
  · decide
  · exact ((sqla_delete_spec
      { rows := [{ id := 1, title := "a", description := none, is_active := true,
                   owner_id := none },
                 { id := 2, title := "b", description := none, is_active := true,
                   owner_id := none }],
        commits := 0, rollbacks := 0 } 1 (by decide)).1).mpr
      ⟨{ id := 1, title := "a", description := none, is_active := true, owner_id := none },
        by simp, rfl⟩

/-! ## Schema-driven repository and service layer
(`app/repositories/base.py`, `app/repositories/item.py`,
`app/repositories/user.py`, `app/services/base.py`,
`app/services/item_service.py`). -/

/-- Model of `ItemCreate` from `app/data/schemas.py`: title, optional description,
`is_active` defaulting to true. -/
structure ItemCreate where
  title : String
  description : Option String := none
  is_active : Bool := true
deriving DecidableEq, Repr

/-- Model of `ItemUpdate` from `app/data/schemas.py`, with pydantic set-ness made
explicit: the outer `Option` is whether the field was explicitly set
(`model_fields_set`), the inner one its value (`None` being a legal value
of every field). `model_dump(exclude_unset=True, exclude_none=True)` keeps
exactly the fields of shape `some (some v)`. -/
structure ItemUpdate where
  title : Option (Option String) := none
  description : Option (Option String) := none
  is_active : Option (Option Bool) := none
deriving DecidableEq, Repr

/-- The `AsyncSession` a service and its repositories share: in-transaction
views of the `items` and `users` tables, the autoincrement counter the
store uses at flush, commit/rollback counters, and counters of the
queries issued against each table. -/
structure ServiceSess where
  items : List Item
  users : List UserRow
  nextId : Nat
  commits : Nat
  rollbacks : Nat
  itemQueries : Nat
  userQueries : Nat
deriving DecidableEq, Repr

namespace Repository

/-- Model of `Repository.get` (lines 55-65), bound to `Item`: `session.get(Item, id)`. -/
def get (s : ServiceSess) (id : Nat) : Option Item × ServiceSess :=
  (s.items.find? (fun r => r.id == id), { s with itemQueries := s.itemQueries + 1 })

/-- Model of `Repository.get_multi` (lines 67-85): `select(Item).offset(skip).limit(limit)`. -/
def get_multi (s : ServiceSess) (skip limit : Nat) : List Item × ServiceSess :=
  ((s.items.drop skip).take limit, { s with itemQueries := s.itemQueries + 1 })

/-- Model of `Repository.create` (lines 87-103): build the model from the dumped
schema (no `id`, no `owner_id` in `ItemCreate`), `session.add`, `flush`
(which assigns the autoincrement primary key). -/
def create (s : ServiceSess) (obj_in : ItemCreate) : Item × ServiceSess :=
  let db_obj : Item :=
    { id := s.nextId, title := obj_in.title, description := obj_in.description,
      is_active := obj_in.is_active, owner_id := none }
  (db_obj,
   { s with items := s.items ++ [db_obj], nextId := s.nextId + 1,
            itemQueries := s.itemQueries + 1 })

/-- The field merge of `Repository.update` (lines 123-133): dump the schema
excluding unset and `None` fields, then `setattr` each dumped field onto
the tracked object (each `ItemUpdate` field name is an `Item` attribute,
so the `hasattr` guard always passes). -/
def applyItemUpdate (db_obj : Item) (obj_in : ItemUpdate) : Item :=
  let o1 := match obj_in.title with
    | some (some v) => { db_obj with title := v }
    | _ => db_obj
  let o2 := match obj_in.description with
    | some (some v) => { o1 with description := some v }
    | _ => o1
  match obj_in.is_active with
  | some (some v) => { o2 with is_active := v }
  | _ => o2

/-- Model of `Repository.update` (lines 105-137): merge the partial update into the
tracked object in place, `session.add`, `flush`. -/
def update (s : ServiceSess) (db_obj : Item) (obj_in : ItemUpdate) : Item × ServiceSess :=
  let updated := applyItemUpdate db_obj obj_in
  (updated,
   { s with items := s.items.map (fun r => if r.id == db_obj.id then updated else r),
            itemQueries := s.itemQueries + 1 })

/-- Model of `Repository.delete` (lines 139-155): `get(id)`; if found,
`session.delete(obj)` and `flush`, returning the object, else `None`. -/
def delete (s : ServiceSess) (id : Nat) : Option Item × ServiceSess :=
  match s.items.find? (fun r => r.id == id) with
  | some obj =>
    (some obj, { s with items := s.items.eraseP (fun r => r.id == id),
                        itemQueries := s.itemQueries + 1 })
  | none => (none, { s with itemQueries := s.itemQueries + 1 })

end Repository

namespace ItemRepository

/-- Model of `ItemRepository.get_by_title` (`app/repositories/item.py` lines 27-41):
first row whose title matches. -/
def get_by_title (s : ServiceSess) (title : String) : Option Item × ServiceSess :=
  (s.items.find? (fun r => r.title == title), { s with itemQueries := s.itemQueries + 1 })

/-- Model of `ItemRepository.get_by_owner` (lines 70-90): rows with the given
`owner_id`, paginated. -/
def get_by_owner (s : ServiceSess) (owner_id skip limit : Nat) : List Item × ServiceSess :=
  (((s.items.filter (fun r => r.owner_id == some owner_id)).drop skip).take limit,
   { s with itemQueries := s.itemQueries + 1 })

end ItemRepository

namespace UserRepository

/-- Model of `UserRepository.get` (`Repository.get` bound to `User`):
`session.get(User, id)`. -/
def get (s : ServiceSess) (id : Nat) : Option UserRow × ServiceSess :=
  (s.users.find? (fun u => u.id == id), { s with userQueries := s.userQueries + 1 })

end UserRepository

namespace BaseService

/-- Model of `BaseService.commit` (`app/services/base.py` lines 49-56): `db.commit()`. -/
def commit (s : ServiceSess) : ServiceSess := { s with commits := s.commits + 1 }

/-- Model of `BaseService.rollback` (lines 58-64): `db.rollback()`. -/
def rollback (s : ServiceSess) : ServiceSess := { s with rollbacks := s.rollbacks + 1 }

/-- Model of `BaseService.refresh` (lines 66-75): `db.refresh(obj)` re-reads the
object by primary key. -/
def refresh (s : ServiceSess) (obj : Item) : Item × ServiceSess :=
  (match s.items.find? (fun r => r.id == obj.id) with
    | some r => r
    | none => obj,
   { s with itemQueries := s.itemQueries + 1 })

end BaseService

/-- FastAPI `HTTPException` as raised by the service layer. -/
structure HTTPException where
  status_code : Nat
  detail : String
deriving DecidableEq, Repr

namespace ItemService

/-- Model of `ItemService.create_item` (`app/services/item_service.py` lines 84-112):
check title uniqueness via `get_by_title`, raise 400 on conflict,
otherwise create, commit once, refresh. -/
def create_item (s : ServiceSess) (item_data : ItemCreate) :
    Except HTTPException Item × ServiceSess :=
  let r1 := ItemRepository.get_by_title s item_data.title
  match r1.1 with
  | some _ =>
    (.error { status_code := 400,
              detail := "Item with title " ++ item_data.title ++ " already exists" },
     r1.2)
  | none =>
    let r2 := Repository.create r1.2 item_data
    let s3 := BaseService.commit r2.2
    let r4 := BaseService.refresh s3 r2.1
    (.ok r4.1, r4.2)

/-- Model of `ItemService.get_items_by_owner` (lines 215-246): validate the owner
exists via the user repository, raise 404 if not, only then query items. -/
def get_items_by_owner (s : ServiceSess) (owner_id skip limit : Nat) :
    Except HTTPException (List Item) × ServiceSess :=
  let r1 := UserRepository.get s owner_id
  match r1.1 with
  | none =>
    (.error { status_code := 404,
              detail := "User with id " ++ toString owner_id ++ " not found" },
     r1.2)
  | some _ =>
    let r2 := ItemRepository.get_by_owner r1.2 owner_id skip limit
    (.ok r2.1, r2.2)

end ItemService

/-- C4: when an item with the requested title already exists, `create_item`
fails with the 400 conflict error, and the failure is raised before any
mutation is staged: the items table, the autoincrement counter and the
commit counter are all unchanged (in particular, every field of the
pre-existing item is untouched). -/
theorem create_item_duplicate_title_conflict (s : ServiceSess) (item_data : ItemCreate)
    (h : ∃ e ∈ s.items, e.title = item_data.title) :
    (ItemService.create_item s item_data).1
        = .error { status_code := 400,
                   detail := "Item with title " ++ item_data.title ++ " already exists" } ∧
    (ItemService.create_item s item_data).2.items = s.items ∧
    (ItemService.create_item s item_data).2.nextId = s.nextId ∧
    (ItemService.create_item s item_data).2.commits = s.commits := by
  obtain ⟨e, he, htitle⟩ := h
  cases hf : s.items.find? (fun r => r.title == item_data.title) with
  | none =>
    exfalso
    have := List.find?_eq_none.mp hf e he
    simp [htitle] at this
  | some a =>
    refine ⟨?_, ?_, ?_, ?_⟩ <;>
      simp [ItemService.create_item, ItemRepository.get_by_title, hf]

/-- C4 witness: a store holding the item titled Alpha; creating a second
Alpha fails with the conflict error and leaves the first item intact. -/
theorem create_item_duplicate_title_conflict_witness :
    (ItemService.create_item
        { items := [{ id := 1, title := "Alpha", description := none, is_active := true,
                      owner_id := none }],
          users := [], nextId := 2, commits := 0, rollbacks := 0,
          itemQueries := 0, userQueries := 0 }
        { title := "Alpha", description := some "again", is_active := false }).1
      = .error { status_code := 400, detail := "Item with title Alpha already exists" } ∧
    (ItemService.create_item
        { items := [{ id := 1, title := "Alpha", description := none, is_active := true,
                      owner_id := none }],
          users := [], nextId := 2, commits := 0, rollbacks := 0,
          itemQueries := 0, userQueries := 0 }
        { title := "Alpha", description := some "again", is_active := false }).2.items
      = [{ id := 1, title := "Alpha", description := none, is_active := true,
           owner_id := none }] :=
  ⟨(create_item_duplicate_title_conflict
      { items := [{ id := 1, title := "Alpha", description := none, is_active := true,
                    owner_id := none }],
        users := [], nextId := 2, commits := 0, rollbacks := 0,
        itemQueries := 0, userQueries := 0 }
      { title := "Alpha", description := some "again", is_active := false }
      ⟨{ id := 1, title := "Alpha", description := none, is_active := true,
         owner_id := none }, by simp, rfl⟩).1,
   (create_item_duplicate_title_conflict
      { items := [{ id := 1, title := "Alpha", description := none, is_active := true,
                    owner_id := none }],
        users := [], nextId := 2, commits := 0, rollbacks := 0,
        itemQueries := 0, userQueries := 0 }
      { title := "Alpha", description := some "again", is_active := false }
      ⟨{ id := 1, title := "Alpha", description := none, is_active := true,
         owner_id := none }, by simp, rfl⟩).2.1⟩

/-- C8: `Repository.update` applies onto the tracked entity exactly the
fields of the partial update that are explicitly set and non-null, leaves
every other field (including `owner_id`) unchanged, and never changes the
primary key of the entity. -/
theorem repository_update_partial_merge (s : ServiceSess) (db_obj : Item)
    (obj_in : ItemUpdate) :
    (Repository.update s db_obj obj_in).1.id = db_obj.id ∧
    (Repository.update s db_obj obj_in).1.owner_id = db_obj.owner_id ∧
    (∀ v, obj_in.title = some (some v) → (Repository.update s db_obj obj_in).1.title = v) ∧
    (obj_in.title = none ∨ obj_in.title = some none →
      (Repository.update s db_obj obj_in).1.title = db_obj.title) ∧
    (∀ v, obj_in.description = some (some v) →
      (Repository.update s db_obj obj_in).1.description = some v) ∧
    (obj_in.description = none ∨ obj_in.description = some none →
      (Repository.update s db_obj obj_in).1.description = db_obj.description) ∧
    (∀ v, obj_in.is_active = some (some v) →
      (Repository.update s db_obj obj_in).1.is_active = v) ∧
    (obj_in.is_active = none ∨ obj_in.is_active = some none →
      (Repository.update s db_obj obj_in).1.is_active = db_obj.is_active) := by
  obtain ⟨t, d, a⟩ := obj_in
  rcases t with _ | (_ | t) <;> rcases d with _ | (_ | d) <;> rcases a with _ | (_ | a) <;>
    simp [Repository.update, Repository.applyItemUpdate]

/-- C8 witness: updating an item with title set to a value, description
explicitly set to null, and `is_active` unset: only the title changes; id,
owner_id, description and is_active keep their old values. -/
theorem repository_update_partial_merge_witness :
    (Repository.update
        { items := [], users := [], nextId := 0, commits := 0, rollbacks := 0,
          itemQueries := 0, userQueries := 0 }
        { id := 7, title := "old", description := some "keep", is_active := false,
          owner_id := some 3 }
        { title := some (some "new"), description := some none, is_active := none }).1
      = { id := 7, title := "new", description := some "keep", is_active := false,
          owner_id := some 3 } := by
  have h := repository_update_partial_merge
    { items := [], users := [], nextId := 0, commits := 0, rollbacks := 0,
      itemQueries := 0, userQueries := 0 }
    { id := 7, title := "old", description := some "keep", is_active := false,
      owner_id := some 3 }
    { title := some (some "new"), description := some none, is_active := none }
  have hid := h.1
  have howner := h.2.1
  have htitle := h.2.2.1 "new" rfl
  have hdesc := h.2.2.2.2.2.1 (Or.inr rfl)
  have hact := h.2.2.2.2.2.2.2 (Or.inl rfl)
  cases hu : (Repository.update
      { items := [], users := [], nextId := 0, commits := 0, rollbacks := 0,
        itemQueries := 0, userQueries := 0 }
      { id := 7, title := "old", description := some "keep", is_active := false,
        owner_id := some 3 }
      { title := some (some "new"), description := some none, is_active := none }).1 with
  | mk uid utitle udesc uact uowner =>
    rw [hu] at hid howner htitle hdesc hact
    simp only at hid howner htitle hdesc hact
    simp [hid, howner, htitle, hdesc, hact]

/-- C9: when no user has the requested owner id, `get_items_by_owner`
raises the 404 not-found error, and no item query is issued (the item
query count and the items view are untouched; only the user lookup ran). -/
theorem get_items_by_owner_missing_user (s : ServiceSess) (owner_id skip limit : Nat)
    (h : ∀ u ∈ s.users, u.id ≠ owner_id) :
    (ItemService.get_items_by_owner s owner_id skip limit).1
        = .error { status_code := 404,
                   detail := "User with id " ++ toString owner_id ++ " not found" } ∧
    (ItemService.get_items_by_owner s owner_id skip limit).2.itemQueries = s.itemQueries ∧
    (ItemService.get_items_by_owner s owner_id skip limit).2.userQueries
        = s.userQueries + 1 ∧
    (ItemService.get_items_by_owner s owner_id skip limit).2.items = s.items := by
  have hf : s.users.find? (fun u => u.id == owner_id) = none :=
    List.find?_eq_none.mpr (fun u hu => by simpa using h u hu)
  refine ⟨?_, ?_, ?_, ?_⟩ <;>
    simp [ItemService.get_items_by_owner, UserRepository.get, hf]

/-- C9 witness: a store with one user (id 1) and one item; asking for the
items of owner 2 yields the 404 error with zero item queries issued. -/
theorem get_items_by_owner_missing_user_witness :
    (ItemService.get_items_by_owner
        { items := [{ id := 1, title := "Alpha", description := none, is_active := true,
                      owner_id := some 1 }],
          users := [{ id := 1 }], nextId := 2, commits := 0, rollbacks := 0,
          itemQueries := 0, userQueries := 0 } 2 0 100).1
      = .error { status_code := 404, detail := "User with id 2 not found" } ∧
    (ItemService.get_items_by_owner
        { items := [{ id := 1, title := "Alpha", description := none, is_active := true,
                      owner_id := some 1 }],
          users := [{ id := 1 }], nextId := 2, commits := 0, rollbacks := 0,
          itemQueries := 0, userQueries := 0 } 2 0 100).2.itemQueries = 0 :=
  ⟨(get_items_by_owner_missing_user
      { items := [{ id := 1, title := "Alpha", description := none, is_active := true,
                    owner_id := some 1 }],
        users := [{ id := 1 }], nextId := 2, commits := 0, rollbacks := 0,
        itemQueries := 0, userQueries := 0 } 2 0 100
      (by decide)).1,
   (get_items_by_owner_missing_user
      { items := [{ id := 1, title := "Alpha", description := none, is_active := true,
                    owner_id := some 1 }],
        users := [{ id := 1 }], nextId := 2, commits := 0, rollbacks := 0,
        itemQueries := 0, userQueries := 0 } 2 0 100
      (by decide)).2.1⟩

/-- C6: no repository operation — `get_by_id`/`get`, `get_all`/`get_multi`,
`create`, `update`, `delete`, `exists`, `find_by_specification`,
`count_by_specification`, `get_paginated_with_filters` — ever issues a
commit or a rollback on its session; the commit and rollback counters only
move through the service layer (`BaseService.commit` / `rollback`). -/
theorem repository_ops_never_commit_or_rollback
    (s : SqlaSession) (t : ServiceSess) (id skip limit : Nat) (entity : Item)
    (spec : Specification) (ospec : Option Specification)
    (db_obj : Item) (obj_in : ItemCreate) (upd : ItemUpdate) :
    ((SQLAlchemyRepository.get_by_id s id).2.commits = s.commits ∧
      (SQLAlchemyRepository.get_by_id s id).2.rollbacks = s.rollbacks) ∧
    ((SQLAlchemyRepository.get_all s skip limit).2.commits = s.commits ∧
      (SQLAlchemyRepository.get_all s skip limit).2.rollbacks = s.rollbacks) ∧
    ((SQLAlchemyRepository.create s entity).2.commits = s.commits ∧
      (SQLAlchemyRepository.create s entity).2.rollbacks = s.rollbacks) ∧
    ((SQLAlchemyRepository.update s entity).2.commits = s.commits ∧
      (SQLAlchemyRepository.update s entity).2.rollbacks = s.rollbacks) ∧
    ((SQLAlchemyRepository.delete s id).2.commits = s.commits ∧
      (SQLAlchemyRepository.delete s id).2.rollbacks = s.rollbacks) ∧
    ((SQLAlchemyRepository.exists_ s id).2.commits = s.commits ∧
      (SQLAlchemyRepository.exists_ s id).2.rollbacks = s.rollbacks) ∧
    ((SQLAlchemyRepository.find_by_specification s spec skip limit).2.commits = s.commits ∧
      (SQLAlchemyRepository.find_by_specification s spec skip limit).2.rollbacks
        = s.rollbacks) ∧
    ((SQLAlchemyRepository.count_by_specification s spec).2.commits = s.commits ∧
      (SQLAlchemyRepository.count_by_specification s spec).2.rollbacks = s.rollbacks) ∧
    ((SQLAlchemyRepository.get_paginated_with_filters s ospec skip limit).2.commits
        = s.commits ∧
      (SQLAlchemyRepository.get_paginated_with_filters s ospec skip limit).2.rollbacks
        = s.rollbacks) ∧
    ((Repository.get t id).2.commits = t.commits ∧
      (Repository.get t id).2.rollbacks = t.rollbacks) ∧
    ((Repository.get_multi t skip limit).2.commits = t.commits ∧
      (Repository.get_multi t skip limit).2.rollbacks = t.rollbacks) ∧
    ((Repository.create t obj_in).2.commits = t.commits ∧
      (Repository.create t obj_in).2.rollbacks = t.rollbacks) ∧
    ((Repository.update t db_obj upd).2.commits = t.commits ∧
      (Repository.update t db_obj upd).2.rollbacks = t.rollbacks) ∧
    ((Repository.delete t id).2.commits = t.commits ∧
      (Repository.delete t id).2.rollbacks = t.rollbacks) ∧
    ((BaseService.commit t).commits = t.commits + 1 ∧
      (BaseService.commit t).rollbacks = t.rollbacks) ∧
    ((BaseService.rollback t).rollbacks = t.rollbacks + 1 ∧
      (BaseService.rollback t).commits = t.commits) := by
  refine ⟨⟨rfl, rfl⟩, ⟨rfl, rfl⟩, ⟨rfl, rfl⟩, ?_, ?_, ⟨rfl, rfl⟩, ⟨rfl, rfl⟩, ⟨rfl, rfl⟩,
    ⟨rfl, rfl⟩, ⟨rfl, rfl⟩, ⟨rfl, rfl⟩, ⟨rfl, rfl⟩, ⟨rfl, rfl⟩, ?_, ⟨rfl, rfl⟩, ⟨rfl, rfl⟩⟩
  · constructor <;> (unfold SQLAlchemyRepository.update; split <;> rfl)
  · constructor <;>
      (cases hf : s.rows.find? (fun r => r.id == id) <;>
        simp [SQLAlchemyRepository.delete, SQLAlchemyRepository.get_by_id, hf])
  · constructor <;>
      (cases hf : t.items.find? (fun r => r.id == id) <;>
        simp [Repository.delete, hf])

end App
